import Mathlib

/-!
Verification of the Adapter repository (Go): a repository-pattern user-management
layer with a reflection-driven auto-migration routine.

The Go source is shallowly embedded:
* struct tags are kept as raw strings and parsed by a faithful model of
  Go's reflect.StructTag.Get,
* goTypeToPostgres and AutoMigrate are translated field by field; the Go
  panic on unsupported types is represented by a dedicated outcome constructor,
* repository construction, Create, GetAll and the user service are modelled
  with backend responses (exec/query outcomes) as explicit inputs.
-/

deriving instance DecidableEq for Except

namespace Adapter

/-! ## Go struct-tag parsing (reflect.StructTag.Get) -/

/-- Characters allowed in a tag key by Go's tag scanner: code above 32,
not a colon, not a double quote, not 0x7f. -/
def isTagKeyChar (c : Char) : Bool :=
  c.val > 32 && c ≠ ':' && c ≠ '"' && c.val ≠ 127

/-- Scan the quoted tag value, starting just after the opening quote.
A backslash skips the following character, as in Go's scanner.
Returns the raw content (escapes included) and the rest after the closing quote. -/
def scanQuoted : List Char → Option (List Char × List Char)
  | [] => none
  | '"' :: rest => some ([], rest)
  | '\\' :: c :: rest =>
      (scanQuoted rest).map (fun p => ('\\' :: c :: p.1, p.2))
  | ['\\'] => none
  | c :: rest =>
      (scanQuoted rest).map (fun p => (c :: p.1, p.2))

/-- Modelled from Go's strconv.Unquote as used by StructTag.Get, restricted to
escape-free quoted strings (the only form occurring in this repository's tags):
content without a backslash is returned verbatim, anything else is rejected. -/
def goUnquote (content : List Char) : Option String :=
  if content.contains '\\' then none else some (String.mk content)

/-- One pass of Go's StructTag.Get loop, with fuel for termination.
Faithful to reflect.StructTag.Lookup: skip spaces, scan the key, require
the key to be followed by a colon and an opening quote, scan the quoted
value, and either unquote it (key found) or continue. -/
def tagLookupLoop (key : String) : Nat → List Char → Option String
  | 0, _ => none
  | fuel + 1, l =>
    let l1 := l.dropWhile (· = ' ')
    if l1.isEmpty then none
    else
      let name := l1.takeWhile isTagKeyChar
      let rest := l1.dropWhile isTagKeyChar
      if name.isEmpty then none
      else
        match rest with
        | ':' :: '"' :: rest1 =>
            match scanQuoted rest1 with
            | none => none
            | some (content, rest2) =>
                if String.mk name = key then goUnquote content
                else tagLookupLoop key fuel rest2
        | _ => none

/-- Go's `StructTag.Get`: like Lookup but with `""` for a missing or
malformed entry. -/
def tagGet (tag : String) (key : String) : String :=
  (tagLookupLoop key (tag.length + 1) tag.toList).getD ""

/-! ## Go strings helpers (strings.Split, strings.ToLower) -/

/-- The accumulator loop of Go's `strings.Split(s, ",")`. -/
def splitCommaAux : List Char → List Char → List String
  | [], acc => [String.mk acc]
  | ',' :: rest, acc => String.mk acc :: splitCommaAux rest []
  | c :: rest, acc => splitCommaAux rest (acc ++ [c])

/-- Go's `strings.Split(s, ",")`: split on every comma, keeping empty
pieces; the result is never empty. -/
def goSplitComma (s : String) : List String := splitCommaAux s.toList []

/-- Go's `strings.ToLower` restricted to the ASCII names occurring here. -/
def goToLower (s : String) : String := String.mk (s.toList.map Char.toLower)

/-! ## Data model: Go types and the entity descriptors of the repository -/

/-- The Go kind of a struct field's type, covering the kinds the repository
can mention plus representatives of unsupported kinds. -/
inductive GoFieldType
  | int
  | int64
  | str
  | bool
  | float64
  deriving DecidableEq, Repr

/-- Go's `t.String()` for the field types above, used in the panic message. -/
def GoFieldType.typeString : GoFieldType → String
  | .int => "int"
  | .int64 => "int64"
  | .str => "string"
  | .bool => "bool"
  | .float64 => "float64"

/-- One field of a Go struct: name, raw struct-tag string, type. -/
structure StructField where
  name : String
  tag : String
  typ : GoFieldType
  deriving DecidableEq, Repr

/-- The reflected value handed to AutoMigrate: either a struct type
(with its name and fields) or a value of a non-struct kind. -/
inductive GoModel
  | structv (name : String) (fields : List StructField)
  | intv (val : Int)
  | stringv (val : String)
  | boolv (val : Bool)
  deriving DecidableEq, Repr

/-- Whether `reflect.TypeOf(model).Kind() == reflect.Struct`. -/
def GoModel.isStructKind : GoModel → Bool
  | .structv _ _ => true
  | _ => false

/-- The `User` entity descriptor from models/user.go, raw tags included:
the ID tag is the unquoted `db:id, primary`, the Name tag is `db:"name"`. -/
def userFields : List StructField :=
  [⟨"ID", "db:id, primary", .int⟩,
   ⟨"Name", "db:\"name\"", .str⟩]

/-- `models.User{}` as passed to AutoMigrate. -/
def userModel : GoModel := .structv "User" userFields

/-! ## Schema translation (AutoMigrate, goTypeToPostgres) -/

/-- goTypeToPostgres from the migration file: Int and Int64 map to BIGSERIAL,
String to TEXT; any other kind panics in Go, modelled as `none`. -/
def goTypeToPostgres : GoFieldType → Option String
  | .int => some "BIGSERIAL"
  | .int64 => some "BIGSERIAL"
  | .str => some "TEXT"
  | _ => none

/-- One column definition as AutoMigrate builds it: `col + " " + sqlType`,
with ` PRIMARY KEY` appended when the primary flag is set. -/
def columnDef (col sqlType : String) (primary : Bool) : String :=
  let base := col ++ " " ++ sqlType
  if primary then base ++ " PRIMARY KEY" else base

/-- The column-building loop of AutoMigrate: fields whose `db` tag is empty
are skipped; otherwise the tag is split on commas, the first part is the
column name, the type comes from goTypeToPostgres, and a second part equal
to `primary` sets the PRIMARY KEY qualifier.  `.error` carries the Go
panic message raised by goTypeToPostgres. -/
def buildColumns : List StructField → Except String (List String)
  | [] => .ok []
  | f :: fs =>
    let tag := tagGet f.tag "db"
    if tag = "" then buildColumns fs
    else
      let parts := goSplitComma tag
      let col := parts.headD ""
      match goTypeToPostgres f.typ with
      | none => .error ("unsupported type: " ++ f.typ.typeString)
      | some sqlType =>
        let primary :=
          match parts with
          | _ :: p1 :: _ => p1 = "primary"
          | _ => false
        (buildColumns fs).map (columnDef col sqlType primary :: ·)

/-- The observable outcome of AutoMigrate up to the database call:
a returned Go error, an escaping panic, or the query string handed
to `db.Exec`. -/
inductive MigrateAction
  | errorR (msg : String)
  | panicked (msg : String)
  | exec (query : String)
  deriving DecidableEq, Repr

/-- AutoMigrate from the migration file: reject non-struct models, build the
table name as the lowercased type name plus "s", build the column list, and
emit the CREATE TABLE IF NOT EXISTS statement. -/
def autoMigrate (m : GoModel) : MigrateAction :=
  match m with
  | .structv name fields =>
    match buildColumns fields with
    | .error msg => .panicked msg
    | .ok cols =>
      .exec ("CREATE TABLE IF NOT EXISTS " ++ (goToLower name ++ "s") ++
             " (" ++ String.intercalate ", " cols ++ ");")
  | _ => .errorR "model must be a struct"

/-! ## Spec-side schema form and backend DDL semantics -/

/-- The spec's table-name rule: lowercase(type name) + "s". -/
def specTableName (name : String) : String := goToLower name ++ "s"

/-- The spec's column-definition form: `<col> <type> [PRIMARY KEY]` with a
supported storage type token. -/
def IsColumnDef (s : String) : Prop :=
  ∃ col typ, (typ = "BIGSERIAL" ∨ typ = "TEXT") ∧
    (s = col ++ " " ++ typ ∨ s = col ++ " " ++ typ ++ " PRIMARY KEY")

/-- The spec's exact statement form for a given type name:
`CREATE TABLE IF NOT EXISTS <table> (<col> <type> [PRIMARY KEY], ...);`. -/
def SpecSchemaForm (name : String) (q : String) : Prop :=
  ∃ cols : List String, (∀ c ∈ cols, IsColumnDef c) ∧
    q = "CREATE TABLE IF NOT EXISTS " ++ specTableName name ++
        " (" ++ String.intercalate ", " cols ++ ");"

/-- Modelled from the spec: the backend's semantics of a
`CREATE TABLE IF NOT EXISTS` statement over the set of existing tables
(the database engine is outside this repository) — a no-op when the table
already exists, a creation otherwise, never an error. -/
def execCreateIfNotExists (table : String) (tables : List String) : List String :=
  if table ∈ tables then tables else table :: tables

/-! ## Repository construction -/

/-- A constructed repository handle (the `db` field plays no further role
in the embedded behavior). -/
structure RepoHandle where
  deriving DecidableEq, Repr

/-- The observable outcome of a repository constructor: how many times it
invoked AutoMigrate, and either a handle or an error. -/
structure ConstructionOutcome where
  migrateCalls : Nat
  result : Except String RepoHandle
  deriving DecidableEq, Repr

/-- NewPostgresRepo: builds the repo, runs `AutoMigrate(models.User{})` once,
and fails construction if migration fails.  `execErr` is the backend's
response to the emitted DDL statement. -/
def newPostgresRepo (execErr : Option String) : ConstructionOutcome :=
  match autoMigrate userModel with
  | .errorR e => ⟨1, .error e⟩
  | .panicked e => ⟨1, .error ("panic: " ++ e)⟩
  | .exec _ =>
    match execErr with
    | some e => ⟨1, .error e⟩
    | none => ⟨1, .ok ⟨⟩⟩

/-- NewMySQLRepo: wraps the handle and returns; no schema application
and no failure path. -/
def newMySQLRepo : ConstructionOutcome := ⟨0, .ok ⟨⟩⟩

/-! ## User record and the Create / GetAll operations -/

/-- models.User. -/
structure User where
  id : Int
  name : String
  deriving DecidableEq, Repr

/-- The statement and arguments PostgresRepo.Create hands to `db.Exec`. -/
def pgCreateStmtArgs (u : User) : String × List String :=
  ("INSERT INTO users (name) VALUES ($1)", [u.name])

/-- The statement and arguments MySQLRepo.Create hands to `db.Exec`. -/
def myCreateStmtArgs (u : User) : String × List String :=
  ("INSERT INTO users (name) VALUES (?)", [u.name])

/-- The backend's response to Create's `Exec` call: the error of the call
itself, and the result of `RowsAffected()` on the returned handle. -/
structure ExecOutcome where
  execErr : Option String
  rowsAffected : Except String Int
  deriving DecidableEq, Repr

/-- PostgresRepo.Create: wraps the exec error, then queries `RowsAffected`
and wraps its error too; on success it prints the count and returns nil. -/
def pgCreate (_u : User) (o : ExecOutcome) : Except String Unit :=
  match o.execErr with
  | some e => .error ("failed to insert user: " ++ e)
  | none =>
    match o.rowsAffected with
    | .error e => .error ("failed to get rows affected: " ++ e)
    | .ok _ => .ok ()

/-- MySQLRepo.Create: wraps the exec error and returns; the exec result
handle is discarded. -/
def myCreate (_u : User) (o : ExecOutcome) : Except String Unit :=
  match o.execErr with
  | some e => .error ("failed to insert user: " ++ e)
  | none => .ok ()

/-- The backend's response to GetAll's `Query` call: the error of the call,
the decode outcome of each returned row (`rows.Scan`), and the final
iteration error (`rows.Err()`). -/
structure QueryOutcome where
  queryErr : Option String
  rows : List (Except String User)
  iterErr : Option String
  deriving DecidableEq, Repr

/-- The scan loop of GetAll: decode rows in order, aborting on the first
failure with the rows decoded so far discarded. -/
def scanRows : List (Except String User) → Except String (List User)
  | [] => .ok []
  | .error e :: _ => .error e
  | .ok u :: rest => (scanRows rest).map (u :: ·)

/-- PostgresRepo.GetAll: query, scan every row (any scan failure aborts with
no records), then check `rows.Err()`. -/
def pgGetAll (o : QueryOutcome) : Except String (List User) :=
  match o.queryErr with
  | some e => .error ("failed to query users: " ++ e)
  | none =>
    match scanRows o.rows with
    | .error e => .error ("failed to scan user: " ++ e)
    | .ok users =>
      match o.iterErr with
      | some e => .error ("error iterating rows: " ++ e)
      | none => .ok users

/-- MySQLRepo.GetAll: textually the same logic as the PostgreSQL variant,
embedded separately to compare the two. -/
def myGetAll (o : QueryOutcome) : Except String (List User) :=
  match o.queryErr with
  | some e => .error ("failed to query users: " ++ e)
  | none =>
    match scanRows o.rows with
    | .error e => .error ("failed to scan user: " ++ e)
    | .ok users =>
      match o.iterErr with
      | some e => .error ("error iterating rows: " ++ e)
      | none => .ok users

/-! ## User service -/

/-- UserService.RegisterUser over an abstract repository Create
(`create` returns the storage error, if any).  The result is the returned
error (none on success) paired with the list of Create invocations made. -/
def registerUser (create : User → Option String) (name : String) :
    Option String × List User :=
  if name = "" then (some "user name cannot be empty", [])
  else
    let user : User := ⟨0, name⟩
    match create user with
    | some e => (some ("failed to register user: " ++ e), [user])
    | none => (none, [user])

/-! ## Shared evaluation lemmas -/

/-- Go's StructTag.Get on the malformed `db:id, primary` tag yields the
empty string: the value after the colon is not quoted, so the scanner
bails out. -/
lemma tagGet_malformed_id_tag : tagGet "db:id, primary" "db" = "" := by decide

/-- Go's StructTag.Get on the well-formed `db:"name"` tag yields `name`. -/
lemma tagGet_name_tag : tagGet "db:\"name\"" "db" = "name" := by decide

/-- What AutoMigrate actually does on the User descriptor: the ID field is
skipped (its tag is malformed), leaving a single `name TEXT` column. -/
lemma autoMigrate_userModel :
    autoMigrate userModel = .exec "CREATE TABLE IF NOT EXISTS users (name TEXT);" := by
  decide

/-! ## Claim theorems -/

/-- Claim C1 (code bug): DeriveSchema on the User descriptor is claimed to
produce two columns, in declaration order, with `id` primary-key and
auto-incrementing; the code actually skips the ID field, because its raw
struct tag `db:id, primary` is unquoted and Go's StructTag.Get returns the
empty string for it.  The emitted statement has exactly one column,
`name TEXT`, with no primary key. -/
theorem autoMigrate_user_drops_id_column :
    tagGet "db:id, primary" "db" = "" ∧
    buildColumns userFields = .ok ["name TEXT"] ∧
    autoMigrate userModel = .exec "CREATE TABLE IF NOT EXISTS users (name TEXT);" := by
  decide

/-- Claim C2 (code bug): an unsupported field type is claimed to surface as
a structural error returned to the caller; goTypeToPostgres actually panics,
and the panic escapes AutoMigrate (modelled by the `panicked` outcome). -/
theorem autoMigrate_unsupported_type_panics :
    goTypeToPostgres .bool = none ∧
    autoMigrate (.structv "Flag" [⟨"On", "db:\"on\"", .bool⟩]) =
      .panicked "unsupported type: bool" := by
  decide

/-- Claim C4: for every input whose kind is not Struct, AutoMigrate returns
the descriptive error `model must be a struct` and never reaches the
statement-emission step. -/
theorem autoMigrate_rejects_nonstruct (m : GoModel) (h : m.isStructKind = false) :
    autoMigrate m = .errorR "model must be a struct" ∧
    ∀ q, autoMigrate m ≠ .exec q := by
  cases m with
  | structv name fields => simp [GoModel.isStructKind] at h
  | intv v => exact ⟨rfl, fun q hq => by simp [autoMigrate] at hq⟩
  | stringv v => exact ⟨rfl, fun q hq => by simp [autoMigrate] at hq⟩
  | boolv v => exact ⟨rfl, fun q hq => by simp [autoMigrate] at hq⟩

/-- Witness for C4 at the concrete non-struct input `42`. -/
theorem autoMigrate_rejects_nonstruct_witness :
    (GoModel.intv 42).isStructKind = false ∧
    autoMigrate (.intv 42) = .errorR "model must be a struct" ∧
    ∀ q, autoMigrate (.intv 42) ≠ .exec q :=
  ⟨rfl, (autoMigrate_rejects_nonstruct (.intv 42) rfl).1,
    (autoMigrate_rejects_nonstruct (.intv 42) rfl).2⟩

/-- Claim C6: DeriveColumnType is a fixed, deterministic map on the
supported semantic types — both Go integer kinds map to BIGSERIAL and the
string kind maps to TEXT, with no dependence on any other input or state. -/
theorem goTypeToPostgres_supported_tokens :
    goTypeToPostgres .int = some "BIGSERIAL" ∧
    goTypeToPostgres .int64 = some "BIGSERIAL" ∧
    goTypeToPostgres .str = some "TEXT" := by
  decide

/-- A successful goTypeToPostgres result is one of the two storage tokens. -/
lemma goTypeToPostgres_token_cases (t : GoFieldType) (s : String)
    (h : goTypeToPostgres t = some s) : s = "BIGSERIAL" ∨ s = "TEXT" := by
  cases t <;> simp [goTypeToPostgres] at h <;> simp [h.symm]

/-- Every string built by columnDef with a storage token matches the spec's
column-definition form. -/
lemma columnDef_isColumnDef (col typ : String) (pk : Bool)
    (h : typ = "BIGSERIAL" ∨ typ = "TEXT") : IsColumnDef (columnDef col typ pk) := by
  refine ⟨col, typ, h, ?_⟩
  cases pk with
  | false => exact Or.inl (by simp [columnDef])
  | true => exact Or.inr (by simp [columnDef])

/-- Every column emitted by the AutoMigrate loop matches the spec's
column-definition form. -/
lemma buildColumns_form (fs : List StructField) :
    ∀ cols, buildColumns fs = .ok cols → ∀ c ∈ cols, IsColumnDef c := by
  induction fs with
  | nil =>
    intro cols h c hc
    simp only [buildColumns] at h
    cases h
    simp at hc
  | cons f rest ih =>
    intro cols h c hc
    simp only [buildColumns] at h
    by_cases htag : tagGet f.tag "db" = ""
    · rw [if_pos htag] at h
      exact ih cols h c hc
    · rw [if_neg htag] at h
      cases hty : goTypeToPostgres f.typ with
      | none => rw [hty] at h; cases h
      | some sqlType =>
        rw [hty] at h
        cases hrec : buildColumns rest with
        | error e => rw [hrec] at h; cases h
        | ok cs =>
          rw [hrec] at h
          cases h
          rcases List.mem_cons.mp hc with h1 | h2
          · subst h1
            exact columnDef_isColumnDef _ _ _ (goTypeToPostgres_token_cases _ _ hty)
          · exact ih cs hrec c h2

/-- Claim C5: every statement AutoMigrate emits for a struct descriptor has
the spec's exact form — table name is the lowercased type name plus "s",
wrapped as CREATE TABLE IF NOT EXISTS with column definitions of the form
`<col> <type> [PRIMARY KEY]` — and the modelled CREATE TABLE IF NOT EXISTS
semantics is idempotent on backend state. -/
theorem autoMigrate_emits_spec_form (name : String) (fields : List StructField)
    (q : String) (h : autoMigrate (.structv name fields) = .exec q) :
    SpecSchemaForm name q ∧
    ∀ table tables,
      execCreateIfNotExists table (execCreateIfNotExists table tables) =
        execCreateIfNotExists table tables := by
  constructor
  · simp only [autoMigrate] at h
    cases hb : buildColumns fields with
    | error e => rw [hb] at h; cases h
    | ok cols =>
      rw [hb] at h
      injection h with h
      exact ⟨cols, buildColumns_form fields cols hb, h.symm⟩
  · intro table tables
    by_cases hmem : table ∈ tables <;> simp [execCreateIfNotExists, hmem]

/-- Witness for C5 at the User descriptor: the emitted statement for User
has the spec form with table `users`. -/
theorem autoMigrate_emits_spec_form_witness :
    SpecSchemaForm "User" "CREATE TABLE IF NOT EXISTS users (name TEXT);" ∧
    ∀ table tables,
      execCreateIfNotExists table (execCreateIfNotExists table tables) =
        execCreateIfNotExists table tables :=
  autoMigrate_emits_spec_form "User" userFields _ (by decide)

/-- Counterexample for C3: the MySQL constructor performs no schema
application at all (AutoMigrate is invoked zero times, not exactly once)
and unconditionally returns a handle. -/
theorem newMySQLRepo_no_migration :
    newMySQLRepo.migrateCalls = 0 ∧ newMySQLRepo.result = .ok ⟨⟩ := by
  decide

/-- Claim C3 as amended: the PostgreSQL constructor invokes AutoMigrate
exactly once and fails construction (returning no handle) whenever schema
application fails; the MySQL constructor performs no schema application
and cannot fail. -/
theorem construction_migration_contract (execErr : Option String) :
    (newPostgresRepo execErr).migrateCalls = 1 ∧
    (∀ e, execErr = some e → (newPostgresRepo execErr).result = .error e) ∧
    (execErr = none → (newPostgresRepo execErr).result = .ok ⟨⟩) ∧
    newMySQLRepo.migrateCalls = 0 := by
  unfold newPostgresRepo
  rw [autoMigrate_userModel]
  cases execErr with
  | none =>
    refine ⟨rfl, ?_, ?_, rfl⟩
    · intro e he
      cases he
    · intro _
      rfl
  | some e0 =>
    refine ⟨rfl, ?_, ?_, rfl⟩
    · intro e he
      cases he
      rfl
    · intro he
      cases he

/-- Witness for C3 (amended) at a concrete failing and a concrete
succeeding schema application. -/
theorem construction_migration_contract_witness :
    (newPostgresRepo (some "connection refused")).migrateCalls = 1 ∧
    (newPostgresRepo (some "connection refused")).result = .error "connection refused" ∧
    (newPostgresRepo none).result = .ok ⟨⟩ ∧
    newMySQLRepo.migrateCalls = 0 :=
  ⟨(construction_migration_contract (some "connection refused")).1,
   (construction_migration_contract (some "connection refused")).2.1 _ rfl,
   (construction_migration_contract none).2.2.1 rfl,
   (construction_migration_contract none).2.2.2⟩

/-- Claim C7: RegisterUser on the empty string returns the validation error
and performs zero Create calls; on any non-empty name it performs exactly
one Create call with the zero-ID record and wraps any storage error. -/
theorem registerUser_validation (create : User → Option String) (name : String) :
    (name = "" → registerUser create name = (some "user name cannot be empty", [])) ∧
    (name ≠ "" →
      registerUser create name =
        ((create ⟨0, name⟩).map (fun e => "failed to register user: " ++ e),
         [⟨0, name⟩])) := by
  constructor
  · intro h
    simp [registerUser, h]
  · intro h
    simp only [registerUser, if_neg h]
    cases hc : create ⟨0, name⟩ <;> simp [hc]

/-- Witness for C7: empty name and the concrete name Alice against a
storage double that always succeeds. -/
theorem registerUser_validation_witness :
    registerUser (fun _ => none) "" = (some "user name cannot be empty", []) ∧
    registerUser (fun _ => none) "Alice" = (none, [⟨0, "Alice"⟩]) := by
  refine ⟨(registerUser_validation (fun _ => none) "").1 rfl, ?_⟩
  have h := (registerUser_validation (fun _ => none) "Alice").2 (by decide)
  simpa using h

/-- The scan loop fails whenever some row fails to decode. -/
lemma scanRows_error_of_mem (rows : List (Except String User))
    (h : ∃ r ∈ rows, ∃ e, r = .error e) :
    ∃ m, scanRows rows = .error m := by
  induction rows with
  | nil => simp at h
  | cons r rest ih =>
    obtain ⟨r', hmem, e, he⟩ := h
    cases r with
    | error e0 => exact ⟨e0, rfl⟩
    | ok u =>
      rcases List.mem_cons.mp hmem with h1 | h2
      · rw [h1] at he; cases he
      · obtain ⟨m, hm⟩ := ih ⟨r', h2, e, he⟩
        exact ⟨m, by simp [scanRows, hm, Except.map]⟩

/-- Claim C8: whenever some row of the backend's row sequence fails to
decode, both GetAll implementations return an error and never a partial
list of records. -/
theorem getAll_decode_failure_no_partial (o : QueryOutcome)
    (h : ∃ r ∈ o.rows, ∃ e, r = .error e) :
    (∃ m, pgGetAll o = .error m) ∧ (∃ m, myGetAll o = .error m) ∧
    (∀ us, pgGetAll o ≠ .ok us) ∧ (∀ us, myGetAll o ≠ .ok us) := by
  obtain ⟨m, hm⟩ := scanRows_error_of_mem o.rows h
  have hpg : ∃ m, pgGetAll o = .error m := by
    cases hq : o.queryErr with
    | some e => exact ⟨"failed to query users: " ++ e, by simp [pgGetAll, hq]⟩
    | none => exact ⟨"failed to scan user: " ++ m, by simp [pgGetAll, hq, hm]⟩
  have hmy : ∃ m, myGetAll o = .error m := hpg
  obtain ⟨m1, hm1⟩ := hpg
  obtain ⟨m2, hm2⟩ := hmy
  refine ⟨⟨m1, hm1⟩, ⟨m2, hm2⟩, ?_, ?_⟩
  · intro us hus
    rw [hm1] at hus
    cases hus
  · intro us hus
    rw [hm2] at hus
    cases hus

/-- Witness for C8 at a concrete two-row response whose second row fails
to decode. -/
theorem getAll_decode_failure_no_partial_witness :
    (∃ m, pgGetAll ⟨none, [.ok ⟨1, "Alice"⟩, .error "bad row"], none⟩ = .error m) ∧
    (∃ m, myGetAll ⟨none, [.ok ⟨1, "Alice"⟩, .error "bad row"], none⟩ = .error m) ∧
    (∀ us, pgGetAll ⟨none, [.ok ⟨1, "Alice"⟩, .error "bad row"], none⟩ ≠ .ok us) ∧
    (∀ us, myGetAll ⟨none, [.ok ⟨1, "Alice"⟩, .error "bad row"], none⟩ ≠ .ok us) :=
  getAll_decode_failure_no_partial _ ⟨.error "bad row", by decide, "bad row", rfl⟩

/-- Counterexample for C9: on a backend response whose exec succeeds but
whose RowsAffected query fails, the PostgreSQL Create returns an error
while the MySQL Create succeeds — the two backends are not behaviorally
identical. -/
theorem create_rows_affected_divergence :
    pgCreate ⟨0, "Alice"⟩ ⟨none, .error "RowsAffected is not supported"⟩ =
      .error "failed to get rows affected: RowsAffected is not supported" ∧
    myCreate ⟨0, "Alice"⟩ ⟨none, .error "RowsAffected is not supported"⟩ = .ok () :=
  ⟨rfl, rfl⟩

/-- Claim C9 as amended: the two GetAll implementations are behaviorally
identical; the two Creates send the same arguments with statements that
differ only in the placeholder token, and they produce the same result
whenever rows-affected retrieval succeeds (PostgreSQL's Create additionally
fails when RowsAffected fails, which MySQL's ignores). -/
theorem backends_equivalent_amended (u : User) (o : ExecOutcome) (q : QueryOutcome) :
    (∀ n, o.rowsAffected = .ok n → pgCreate u o = myCreate u o) ∧
    pgGetAll q = myGetAll q ∧
    (pgCreateStmtArgs u).2 = (myCreateStmtArgs u).2 ∧
    (∃ pre post, (pgCreateStmtArgs u).1 = pre ++ "$1" ++ post ∧
                 (myCreateStmtArgs u).1 = pre ++ "?" ++ post) := by
  refine ⟨?_, rfl, rfl, ⟨"INSERT INTO users (name) VALUES (", ")", ?_, ?_⟩⟩
  · intro n hn
    cases he : o.execErr with
    | some e => simp [pgCreate, myCreate, he]
    | none => simp [pgCreate, myCreate, he, hn]
  · rfl
  · rfl

/-- Witness for C9 (amended) at a concrete record and concrete successful
backend responses. -/
theorem backends_equivalent_amended_witness :
    pgCreate ⟨0, "Bob"⟩ ⟨none, .ok 1⟩ = myCreate ⟨0, "Bob"⟩ ⟨none, .ok 1⟩ ∧
    pgGetAll ⟨none, [], none⟩ = myGetAll ⟨none, [], none⟩ :=
  ⟨(backends_equivalent_amended ⟨0, "Bob"⟩ ⟨none, .ok 1⟩ ⟨none, [], none⟩).1 1 rfl,
   (backends_equivalent_amended ⟨0, "Bob"⟩ ⟨none, .ok 1⟩ ⟨none, [], none⟩).2.1⟩

/-- Claim C10: the statement and arguments Create sends depend only on the
record's Name — records equal up to ID produce identical statements and
arguments on both backends — and RegisterUser always constructs the record
with a zero ID. -/
theorem create_ignores_id (u v : User) (h : u.name = v.name) :
    pgCreateStmtArgs u = pgCreateStmtArgs v ∧
    myCreateStmtArgs u = myCreateStmtArgs v ∧
    ∀ create name, name ≠ "" → (registerUser create name).2 = [⟨0, name⟩] := by
  refine ⟨by simp [pgCreateStmtArgs, h], by simp [myCreateStmtArgs, h], ?_⟩
  intro create name hn
  simp only [registerUser, if_neg hn]
  cases hc : create ⟨0, name⟩ <;> simp [hc]

/-- Witness for C10 at two concrete records sharing a name but not an ID. -/
theorem create_ignores_id_witness :
    pgCreateStmtArgs ⟨1, "Carol"⟩ = pgCreateStmtArgs ⟨2, "Carol"⟩ ∧
    myCreateStmtArgs ⟨1, "Carol"⟩ = myCreateStmtArgs ⟨2, "Carol"⟩ ∧
    (registerUser (fun _ => none) "Carol").2 = [⟨0, "Carol"⟩] :=
  ⟨(create_ignores_id ⟨1, "Carol"⟩ ⟨2, "Carol"⟩ rfl).1,
   (create_ignores_id ⟨1, "Carol"⟩ ⟨2, "Carol"⟩ rfl).2.1,
   (create_ignores_id ⟨1, "Carol"⟩ ⟨2, "Carol"⟩ rfl).2.2 (fun _ => none) "Carol" (by decide)⟩

end Adapter
